import Mathlib

/-
Verification of the PyXtal SEAMM step (pyxtal_step) against its design
specification.  The Python sources are shallowly embedded: pure string and
list manipulations become Lean functions, Python exceptions become
`Except String`, and the mutable structure database becomes explicit state
passing.  External collaborators (the SEAMM structure database, Open Babel,
the chemical-formula parser, pint unit conversion) are modelled as oracle
inputs or as the minimal state operations the spec describes for them.
Real-valued quantities (coordinates, the area and thickness bounds) are
represented exactly as integer multiples of 10⁻⁸, the finest precision the
source ever prints; the properties proved are structural and do not depend
on binary floating-point rounding.
-/

namespace PyXtalStep

/-! ## Python string primitives (kernel-reducible reimplementations) -/

/-- Helper for `strContains`: does `pat` occur as a contiguous block in the
character list? -/
def listContainsSeq (pat : List Char) : List Char → Bool
  | [] => pat.isEmpty
  | c :: rest => pat.isPrefixOf (c :: rest) || listContainsSeq pat rest

/-- Models the Python substring test `pat in s`. -/
def strContains (s pat : String) : Bool :=
  listContainsSeq pat.data s.data

/-- Models Python `str.endswith`. -/
def strEndsWith (s pat : String) : Bool :=
  pat.data.isSuffixOf s.data

/-- Models Python `str.startswith`. -/
def strStartsWith (s pat : String) : Bool :=
  pat.data.isPrefixOf s.data

/-- Models Python `str.lower` (ASCII, which is all the source compares). -/
def strToLower (s : String) : String :=
  String.mk (s.data.map Char.toLower)

/-- Split a character list at every character satisfying `p` (separators are
dropped; empty pieces are kept, as in Python `str.split(sep)`). -/
def splitByPred (p : Char → Bool) : List Char → List (List Char)
  | [] => [[]]
  | a :: rest =>
    if p a then [] :: splitByPred p rest
    else
      match splitByPred p rest with
      | [] => [[a]]
      | g :: gs => (a :: g) :: gs

/-- Models Python `str.split(sep)` for a one-character separator. -/
def splitOnChar (c : Char) (cs : List Char) : List (List Char) :=
  splitByPred (fun a => a == c) cs

/-- Models Python `str.split()` with no arguments: split on whitespace,
discarding empty pieces. -/
def pySplitWs (s : String) : List String :=
  ((splitByPred Char.isWhitespace s.data).map String.mk).filter (fun t => !t.isEmpty)

/-- Models Python `str.splitlines()` as splitting on newline characters.
(Python additionally drops a trailing empty line; that difference is
immaterial to every property proved here, since an empty line never matches
a marker nor parses as a version line.) -/
def pySplitLines (s : String) : List String :=
  (splitOnChar '\n' s.data).map String.mk

/-- Models Python `str.strip()`. -/
def strTrim (s : String) : String :=
  String.mk (((s.data.dropWhile Char.isWhitespace).reverse.dropWhile
    Char.isWhitespace).reverse)

/-- Left-pad a string with copies of `c` up to width `n` (no-op when the
string is already at least that wide). -/
def leftPadWith (c : Char) (n : Nat) (s : String) : String :=
  String.mk (List.replicate (n - s.length) c) ++ s

/-- Models the Python format `f"{symbol:2}"` on a string: strings are
left-aligned by default, so the string is padded on the right to width `w`. -/
def pyPadStr (s : String) (w : Nat) : String :=
  s ++ String.mk (List.replicate (w - s.length) ' ')

/-! ## Exact fixed-point numbers

A real-valued quantity of the source (a coordinate, the rod area, the slab
thickness) is embedded as an exact integer multiple of 10⁻⁸. -/

/-- A real value represented exactly as `units · 10⁻⁸`. -/
structure Fixed8 where
  units : Int
deriving DecidableEq, Repr

/-- Integer division rounding to nearest, halves away from zero (`b ≠ 0`).
The claims proved below never depend on the tie-breaking rule. -/
def divRoundNearest (a : Int) (b : Nat) : Int :=
  let q : Nat := (2 * a.natAbs + b) / (2 * b)
  if a < 0 then -(q : Int) else (q : Int)

/-- Rescale a `Fixed8` value to an integer count of `10⁻ᵖʳᵉᶜ` units. -/
def scaleTo (x : Fixed8) (prec : Nat) : Int :=
  if prec ≤ 8 then divRoundNearest x.units (10 ^ (8 - prec))
  else x.units * (10 : Int) ^ (prec - 8)

/-! ## Python float format specifiers

`pyxtal.py` formats floats with the specs `"f.3"` (lines 256 and 262) and
`"15.8f"` (line 291).  CPython parses a float format spec as
`[[fill]align][sign][#][0][width][grouping][.precision][type]` and rejects
any trailing characters; the model below implements exactly that parse. -/

/-- Alignment characters of the Python format mini-language. -/
def isAlignChar (c : Char) : Bool :=
  c == '<' || c == '>' || c == '=' || c == '^'

/-- Presentation types CPython accepts for floats. -/
def isFloatTypeChar (c : Char) : Bool :=
  c == 'e' || c == 'E' || c == 'f' || c == 'F' || c == 'g' || c == 'G' ||
    c == 'n' || c == '%'

/-- Parsed fields of a Python format specifier (the fields the source's
specs can exercise). -/
structure PyFormatSpec where
  align : Option Char
  sign : Option Char
  width : Nat
  prec : Option Nat
  typ : Option Char
deriving DecidableEq, Repr

/-- Decimal digits to a natural number. -/
def digitsToNat (ds : List Char) : Nat :=
  ds.foldl (fun n c => 10 * n + (c.toNat - '0'.toNat)) 0

/-- Final step of the format-spec parse: after width/precision, at most one
presentation-type character may remain. -/
def parseSpecTail (al sg : Option Char) (w : List Char) (p : Option (List Char)) :
    List Char → Option PyFormatSpec
  | [] => some ⟨al, sg, digitsToNat w, p.map digitsToNat, none⟩
  | [t] =>
    if isFloatTypeChar t then some ⟨al, sg, digitsToNat w, p.map digitsToNat, some t⟩
    else none
  | _ => none

/-- Parse a Python float format specifier, mirroring CPython's
`parse_internal_render_format_spec`; `none` models the
`ValueError: Invalid format specifier` raised on a malformed spec. -/
def parseFloatSpec (spec : String) : Option PyFormatSpec :=
  let cs := spec.data
  let st1 : Option Char × List Char :=
    match cs with
    | a :: b :: rest =>
      if isAlignChar b then (some b, rest)
      else if isAlignChar a then (some a, b :: rest)
      else (none, cs)
    | [a] => if isAlignChar a then (some a, []) else (none, [a])
    | [] => (none, [])
  let al := st1.1
  let st2 : Option Char × List Char :=
    match st1.2 with
    | c :: rest => if c == '+' || c == '-' || c == ' ' then (some c, rest) else (none, st1.2)
    | [] => (none, [])
  let sg := st2.1
  let cs3 := match st2.2 with | '#' :: rest => rest | other => other
  let cs4 := match cs3 with | '0' :: rest => rest | other => other
  let w := cs4.takeWhile Char.isDigit
  let cs5 := cs4.dropWhile Char.isDigit
  let cs6 := match cs5 with | ',' :: rest => rest | '_' :: rest => rest | other => other
  match cs6 with
  | '.' :: rest =>
    let pd := rest.takeWhile Char.isDigit
    let cs7 := rest.dropWhile Char.isDigit
    if pd.isEmpty then none else parseSpecTail al sg w (some pd) cs7
  | other => parseSpecTail al sg w none other

/-- Render a `Fixed8` value in fixed-point notation with `prec` digits
after the decimal point. -/
def renderFixed (x : Fixed8) (prec : Nat) : String :=
  let scaled : Int := scaleTo x prec
  let sgn := if scaled < 0 then "-" else ""
  let m := scaled.natAbs
  let ip := m / 10 ^ prec
  let fp := m % 10 ^ prec
  if prec == 0 then sgn ++ toString ip
  else sgn ++ toString ip ++ "." ++ leftPadWith '0' prec (toString fp)

/-- Render a float under a parsed spec.  The source only exercises the
fixed-point type with default (right) alignment, which is what is modelled;
the default precision is 6 as in Python. -/
def renderFloat (sp : PyFormatSpec) (x : Fixed8) : String :=
  leftPadWith ' ' sp.width (renderFixed x (sp.prec.getD 6))

/-- Models the Python f-string fragment `f"{x:spec}"` for a float value:
an invalid specifier raises `ValueError`, which the source never catches. -/
def pyFormatFloat (x : Fixed8) (spec : String) : Except String String :=
  match parseFloatSpec spec with
  | none => .error ("ValueError: Invalid format specifier " ++ spec)
  | some sp => .ok (renderFloat sp x)

/-- Shape of the `"15.8f"`-formatted coordinate used in the generated
`.xyz` file: 8 decimals, padded on the left to a minimum width of 15. -/
def fmt158 (x : Fixed8) : String :=
  leftPadWith ' ' 15 (renderFixed x 8)

/-! ## The resolved control parameters of one run

`PyXtal.run` reads the dereferenced parameter values `P` (pyxtal.py lines
211-213).  The chemical-formula parser is the external `chemical_formula`
package, so its output — the ordered symbol/count pairs of
`Formula(P["formula"]).to_dict()` — is an oracle input, and the pint unit
conversions `P["area"].to("Å^2").magnitude` and
`P["thickness"].to("Å").magnitude` are modelled by taking the already
converted magnitudes as the parameter values. -/

structure Params where
  buildType : String
  dimensionality : String
  symmetry : String
  formulaDict : List (String × Nat)
  nMolecules : Nat
  attempts : Nat
  area : Fixed8
  thickness : Fixed8
  subsequentHandling : String
  systemNamePolicy : String
  configurationNamePolicy : String
deriving DecidableEq

/-- The current configuration whose atoms are serialized in molecule mode
(an external structure-database object; `n_atoms`, `atoms.symbols` and
`atoms.coordinates` are the fields `run` reads). -/
structure CurrentConfiguration where
  n_atoms : Nat
  symbols : List String
  coordinates : List (Fixed8 × Fixed8 × Fixed8)
  name : String
deriving DecidableEq

/-- Map a fallible function over a list, propagating the first error
(Python: an exception escaping from a loop body). -/
def exceptMap (f : α → Except String β) : List α → Except String (List β)
  | [] => .ok []
  | a :: l =>
    match f a with
    | .error e => .error e
    | .ok b =>
      match exceptMap f l with
      | .error e => .error e
      | .ok bs => .ok (b :: bs)

/-- One coordinate line of the generated `.xyz` file, as a plain string:
`f"{symbol:2} {xyz[0]:15.8f} {xyz[1]:15.8f} {xyz[2]:15.8f}"`
(pyxtal.py line 291). -/
def coordLineStr (symbol : String) (xyz : Fixed8 × Fixed8 × Fixed8) : String :=
  pyPadStr symbol 2 ++ " " ++ fmt158 xyz.1 ++ " " ++ fmt158 xyz.2.1 ++ " " ++
    fmt158 xyz.2.2

/-- One coordinate line, with each float going through the format-spec
machinery exactly as the f-string does. -/
def coordLine (symbol : String) (xyz : Fixed8 × Fixed8 × Fixed8) :
    Except String String :=
  match pyFormatFloat xyz.1 "15.8f" with
  | .error e => .error e
  | .ok a =>
    match pyFormatFloat xyz.2.1 "15.8f" with
    | .error e => .error e
    | .ok b =>
      match pyFormatFloat xyz.2.2 "15.8f" with
      | .error e => .error e
      | .ok c => .ok (pyPadStr symbol 2 ++ " " ++ a ++ " " ++ b ++ " " ++ c)

/-- The list `lines` built for the molecule-mode input file
(pyxtal.py lines 284-293): atom count, then `f"{system.name}/{conf.name}"`,
then one line per `zip(symbols, coordinates)` entry. -/
def xyzLines (currentSystemName : String) (conf : CurrentConfiguration) :
    Except String (List String) :=
  match exceptMap (fun p => coordLine p.1 p.2) (conf.symbols.zip conf.coordinates) with
  | .error e => .error e
  | .ok coordLines =>
    .ok (toString conf.n_atoms :: (currentSystemName ++ "/" ++ conf.name) :: coordLines)

/-- The full text of `files["in1.xyz"]`: the lines joined with newlines
(pyxtal.py line 293). -/
def xyzFileText (currentSystemName : String) (conf : CurrentConfiguration) :
    Except String String :=
  match xyzLines currentSystemName conf with
  | .error e => .error e
  | .ok ls => .ok (String.intercalate "\n" ls)

/-! ## The command builder (pyxtal.py lines 234-316) -/

/-- What the command builder produces: the argument list, the input files to
write, and the glob patterns of the files to bring back. -/
structure BuildOutput where
  cmd : List String
  files : List (String × String)
  returnFiles : List String
deriving DecidableEq

/-- The command builder of `PyXtal.run` (pyxtal.py lines 234-316),
translated branch for branch.  Note that the dimensionality dispatch
(lines 249-266) has no `else` branch: an unrecognized dimensionality emits
no numeric code and requests no return files, without raising.  The `-t`
values for 1-D and 2-D go through the f-string format `f"{value:f.3}"`
(lines 256 and 262), whose specifier is invalid, so those branches raise
`ValueError`. -/
def buildCommand (exePath : String) (P : Params)
    (currentSystemName : String) (conf : CurrentConfiguration) :
    Except String BuildOutput :=
  let cmd0 := [exePath]
  let cmd1 := if P.buildType == "molecules" then cmd0 ++ ["-m"] else cmd0
  let cmd2 := cmd1 ++ ["-d"]
  let dimStep : Except String (List String × List String) :=
    if strContains P.dimensionality "0-D" then
      .ok (cmd2 ++ ["0"], ["*.xyz"])
    else if strContains P.dimensionality "1-D" then
      match pyFormatFloat P.area "f.3" with
      | .error e => .error e
      | .ok s => .ok (cmd2 ++ ["1", "-t", s], ["*.cif"])
    else if strContains P.dimensionality "2-D" then
      match pyFormatFloat P.thickness "f.3" with
      | .error e => .error e
      | .ok s => .ok (cmd2 ++ ["2", "-t", s], ["*.cif"])
    else if strContains P.dimensionality "3-D" then
      .ok (cmd2 ++ ["3"], ["*.cif"])
    else
      .ok (cmd2, [])
  match dimStep with
  | .error e => .error e
  | .ok (cmd3, returnFiles) =>
    let cmd4 := cmd3 ++ ["-s", P.symmetry, "-e"]
    let elemStep : Except String (List String × List (String × String)) :=
      if P.buildType == "molecules" then
        match xyzFileText currentSystemName conf with
        | .error e => .error e
        | .ok text =>
          .ok (cmd4 ++ ["./in1.xyz", "-n", toString P.nMolecules], [("in1.xyz", text)])
      else
        .ok (cmd4 ++ [String.intercalate "," (P.formulaDict.map Prod.fst), "-n",
          String.intercalate "," (P.formulaDict.map (fun p => toString p.2))], [])
    match elemStep with
    | .error e => .error e
    | .ok (cmd5, files) =>
      .ok ⟨cmd5 ++ ["-o", ".", "-a", toString P.attempts], files, returnFiles⟩

/-! ## The description text (pyxtal.py lines 150-193)

Only the dimensionality dispatch of `description_text` can raise; the rest
of the text assembles parameter values and external helper strings.  `run`
evaluates `self.description_text(P)` (line 216) before any command
building, so this dispatch is the first place an unrecognized
dimensionality is seen during a run. -/

/-- Models the SEAMM convention for deferred expressions: a value is an
expression when it starts with the `$` marker (documented in
pyxtal_parameters.py lines 38-40; `is_expr` itself lives in the external
`seamm` package). -/
def is_expr (s : String) : Bool :=
  strStartsWith s "$"

/-- The dimensionality dispatch of `description_text` (pyxtal.py lines
153-167): unrecognized non-expression values raise `ValueError`. -/
def descriptionDimPhrase (dim : String) : Except String String :=
  if strContains dim "0-D" then .ok "Create a molecule "
  else if strContains dim "1-D" then .ok "Create a 1-D rod "
  else if strContains dim "2-D" then .ok "Create a 2-D slab "
  else if strContains dim "3-D" then .ok "Create a 3-D crystal "
  else if is_expr dim then
    .ok ("Create a system whose dimensionality is given by " ++ dim ++ " ")
  else .error ("ValueError: Cant handle dimensionality: " ++ dim)

/-- The prefix of `run` relevant to command construction: line 216 prints
`description_text(P)` (whose dimensionality dispatch may raise), then lines
234-316 build the command. -/
def runCommandPhase (exePath : String) (P : Params)
    (currentSystemName : String) (conf : CurrentConfiguration) :
    Except String BuildOutput :=
  match descriptionDimPhrase P.dimensionality with
  | .error e => .error e
  | .ok _ => buildCommand exePath P currentSystemName conf

/-! ## The structure database

Modelled from the spec: the structure database is an external store of
systems, each holding a list of named configurations
(spec sections 3 and 4.3); `system_db.create_system()` appends a fresh
system, `system.create_configuration()` appends a fresh configuration to
that system, and assigning `system.name` / `configuration.name` /
loading geometry mutate the addressed entry in place.  Mutation is made
explicit: an operation returns the updated database together with the
index of the entry it addressed. -/

/-- Where a configuration's geometry came from. -/
inductive GeomSource
  | empty
  | fromOBMol (title : String)
  | fromCifText (text : Option String)
deriving DecidableEq

/-- A configuration of the structure database. -/
structure DBConfig where
  name : String
  geom : GeomSource
deriving DecidableEq

/-- A system of the structure database. -/
structure DBSystem where
  name : String
  configs : List DBConfig
deriving DecidableEq

/-- The structure database. -/
structure SystemDB where
  systems : List DBSystem
deriving DecidableEq

/-- Apply `f` to the element at index `i` (no-op when out of range). -/
def modifyAt (f : α → α) : List α → Nat → List α
  | [], _ => []
  | a :: l, 0 => f a :: l
  | a :: l, n + 1 => a :: modifyAt f l n

/-- Modelled from the spec: `system_db.create_system()` appends a fresh
system; the result is the new database and the new system's index. -/
def SystemDB.createSystem (db : SystemDB) : SystemDB × Nat :=
  (⟨db.systems ++ [⟨"", []⟩]⟩, db.systems.length)

/-- Modelled from the spec: `system.create_configuration()` appends a fresh
configuration to system `si`; the result is the new database and the new
configuration's index within that system. -/
def SystemDB.createConfiguration (db : SystemDB) (si : Nat) : SystemDB × Nat :=
  (⟨modifyAt (fun s => ⟨s.name, s.configs ++ [⟨"", .empty⟩]⟩) db.systems si⟩,
    (db.systems.getD si ⟨"", []⟩).configs.length)

/-- Assign `system.name` for the system at `si`. -/
def SystemDB.setSystemName (db : SystemDB) (si : Nat) (nm : String) : SystemDB :=
  ⟨modifyAt (fun s => ⟨nm, s.configs⟩) db.systems si⟩

/-- Assign `configuration.name` for configuration `ci` of system `si`. -/
def SystemDB.setConfigName (db : SystemDB) (si ci : Nat) (nm : String) : SystemDB :=
  ⟨modifyAt (fun s => ⟨s.name, modifyAt (fun c => ⟨nm, c.geom⟩) s.configs ci⟩)
    db.systems si⟩

/-- Load geometry into configuration `ci` of system `si`
(`configuration.from_OBMol` / `configuration.from_cif_text`). -/
def SystemDB.setConfigGeom (db : SystemDB) (si ci : Nat) (g : GeomSource) : SystemDB :=
  ⟨modifyAt (fun s => ⟨s.name, modifyAt (fun c => ⟨c.name, g⟩) s.configs ci⟩)
    db.systems si⟩

/-- The per-system configuration counts, the projection the
structure-handling claims are about. -/
def configCounts (db : SystemDB) : List Nat :=
  db.systems.map (fun s => s.configs.length)

/-! ## Result ingestion (pyxtal.py lines 327-422) -/

/-- One returned file of the invocation result.  `data` is
`result[filename]["data"]` and `exceptionText` is
`result[filename]["exception"]` (written in place of missing data).  The
Open Babel conversion of an `.xyz` file is external, so its outcome is an
oracle: `xyzReadOk` is whether `obConversion.ReadFile` succeeds, `obTitle`
is what `obMol.GetTitle()` would return, and `canonicalSmiles` / `smiles`
are the identifier properties of the configuration once this file's
geometry is loaded. -/
structure RetFile where
  name : String
  data : Option String
  exceptionText : String
  xyzReadOk : Bool
  obTitle : String
  canonicalSmiles : String
  smiles : String
deriving DecidableEq

/-- The system-name policy dispatch (pyxtal.py lines 399-408).  `obMol` is
the Python local of that name: `none` means it was never assigned, so
reading it raises `UnboundLocalError`.  Returns the name to assign, or
`none` when the policy string is empty (no assignment). -/
def applySystemName (policy : String) (obMol : Option String)
    (canonicalSmiles smiles : String) : Except String (Option String) :=
  if policy == "" then .ok none
  else
    let lowerName := strToLower policy
    if strContains lowerName "from file" then
      match obMol with
      | some t => .ok (some t)
      | none => .error "UnboundLocalError: local variable obMol referenced before assignment"
    else if strContains lowerName "canonical smiles" then .ok (some canonicalSmiles)
    else if strContains lowerName "smiles" then .ok (some smiles)
    else .ok (some policy)

/-- The configuration-name policy dispatch (pyxtal.py lines 411-422); like
the system-name dispatch plus the `sequential` branch, which assigns the
decimal string of `n_structures`. -/
def applyConfigurationName (policy : String) (nStructures : Nat)
    (obMol : Option String) (canonicalSmiles smiles : String) :
    Except String (Option String) :=
  if policy == "" then .ok none
  else
    let lowerName := strToLower policy
    if strContains lowerName "from file" then
      match obMol with
      | some t => .ok (some t)
      | none => .error "UnboundLocalError: local variable obMol referenced before assignment"
    else if strContains lowerName "canonical smiles" then .ok (some canonicalSmiles)
    else if strContains lowerName "smiles" then .ok (some smiles)
    else if lowerName == "sequential" then .ok (some (toString nStructures))
    else .ok (some policy)

/-- The loop state of the ingestion loop: the database, the indices of the
current target system and configuration, the structure count, and the
Python local `obMol` (`none` = not yet assigned). -/
structure IngestState where
  db : SystemDB
  si : Nat
  ci : Nat
  nStructures : Nat
  obMol : Option String
deriving DecidableEq

/-- One iteration of the ingestion loop (pyxtal.py lines 371-422),
translated branch for branch.  The acceptance dispatch is lines 372-383:
an `.xyz` file is accepted only for a 0-D run (and a failed Open Babel read
raises); the `elif` accepts any `.cif` file — the `elif` is not gated on
dimensionality; anything else is skipped by `continue`.  Then the target
selection (lines 385-391), geometry load (lines 393-396) and the two
naming dispatches (lines 398-422). -/
def ingestFile (P : Params) (st : IngestState) (f : RetFile) :
    Except String IngestState :=
  let xyzAccept := strContains P.dimensionality "0-D" && strEndsWith f.name ".xyz"
  if xyzAccept && !f.xyzReadOk then
    .error ("RuntimeError: Error reading " ++ f.name)
  else if !xyzAccept && !(strEndsWith f.name ".cif") then
    .ok st
  else
    let obMol := if xyzAccept then some f.obTitle else st.obMol
    let n := st.nStructures + 1
    let tgt : SystemDB × Nat × Nat :=
      if n > 1 then
        if P.subsequentHandling == "Create a new configuration" then
          let r := st.db.createConfiguration st.si
          (r.1, st.si, r.2)
        else
          let r1 := st.db.createSystem
          let r2 := r1.1.createConfiguration r1.2
          (r2.1, r1.2, r2.2)
      else (st.db, st.si, st.ci)
    let si := tgt.2.1
    let ci := tgt.2.2
    let db2 :=
      if xyzAccept then tgt.1.setConfigGeom si ci (.fromOBMol f.obTitle)
      else tgt.1.setConfigGeom si ci (.fromCifText f.data)
    match applySystemName P.systemNamePolicy obMol f.canonicalSmiles f.smiles with
    | .error e => .error e
    | .ok sysN =>
      let db3 := match sysN with | some nm => db2.setSystemName si nm | none => db2
      match applyConfigurationName P.configurationNamePolicy n obMol
          f.canonicalSmiles f.smiles with
      | .error e => .error e
      | .ok confN =>
        let db4 := match confN with | some nm => db3.setConfigName si ci nm | none => db3
        .ok ⟨db4, si, ci, n, obMol⟩

/-- The ingestion loop over the returned filenames, in order
(pyxtal.py line 371). -/
def ingest (P : Params) : IngestState → List RetFile → Except String IngestState
  | st, [] => .ok st
  | st, f :: rest =>
    match ingestFile P st f with
    | .error e => .error e
    | .ok st2 => ingest P st2 rest

/-- The acceptance condition actually implemented by the loop's dispatch
(pyxtal.py lines 372-383): 0-D `.xyz` files, and `.cif` files regardless of
dimensionality. -/
def codeAccepts (dim name : String) : Bool :=
  (strContains dim "0-D" && strEndsWith name ".xyz") || strEndsWith name ".cif"

/-- Modelled from the spec (section 4.3, step 2): the acceptance rule as
the specification states it — for 0-D runs only `.xyz` files, for all other
dimensionalities only `.cif` files.  Kept side by side with `codeAccepts`
for the refinement comparison. -/
def specAccepts (dim name : String) : Bool :=
  if strContains dim "0-D" then strEndsWith name ".xyz" else strEndsWith name ".cif"

/-! ## Handling of the process-runner result (pyxtal.py lines 327-361) -/

/-- The invocation result returned by `seamm.ExecLocal().run`. -/
structure InvocationResult where
  stdoutText : String
  stderrText : String
  files : List RetFile
deriving DecidableEq

/-- Resolve the on-disk path of a returned file (pyxtal.py lines 351-356):
a name of the form `@subdir+fname` goes one directory down; the unpacking
`subdir, fname = filename[1:].split("+")` raises unless the split has
exactly two parts. -/
def pyOutPath (name : String) : Except String String :=
  if strStartsWith name "@" then
    match (splitOnChar '+' (name.drop 1).data).map String.mk with
    | [a, b] => .ok (a ++ "/" ++ b)
    | _ => .error "ValueError: unpacking filename"
  else .ok name

/-- The files `run` writes to the step directory after a non-null result
(pyxtal.py lines 339-361): `stdout.txt` when stdout is nonempty,
`stderr.txt` when stderr is nonempty, then every returned file — its data,
or its exception text when the data is absent. -/
def writeResultFiles (res : InvocationResult) : Except String (List (String × String)) :=
  match exceptMap (fun f =>
      match pyOutPath f.name with
      | .error e => .error e
      | .ok p => .ok (p, match f.data with | some d => d | none => f.exceptionText))
    res.files with
  | .error e => .error e
  | .ok outs =>
    .ok ((if res.stdoutText != "" then [("stdout.txt", res.stdoutText)] else []) ++
      (if res.stderrText != "" then [("stderr.txt", res.stderrText)] else []) ++ outs)

/-- What the step's result handling produces: the returned node (`none` =
the step aborted with no successor), the error-level log entries, the files
written after the run, and the structure count. -/
structure RunOutcome where
  next : Option Unit
  errorLogs : List String
  writtenFiles : List (String × String)
  nStructures : Nat
deriving DecidableEq

/-- The result handling of `run` from the process-runner call on
(pyxtal.py lines 327-422): a null result logs at error level and returns no
successor node (lines 329-331) before any file is written or structure
created; otherwise the output files are persisted and the returned files
ingested. -/
def processResult (P : Params) (st0 : IngestState) (res : Option InvocationResult) :
    Except String RunOutcome :=
  match res with
  | none => .ok ⟨none, ["There was an error running PyXtal"], [], 0⟩
  | some r =>
    match writeResultFiles r with
    | .error e => .error e
    | .ok written =>
      match ingest P st0 r.files with
      | .error e => .error e
      | .ok st => .ok ⟨some (), [], written, st.nStructures⟩

/-! ## Citations and version detection (pyxtal.py lines 428-511) -/

/-- The opening-brace character of a `$`-brace placeholder. -/
def braceL : Char := Char.ofNat 123

/-- The closing-brace character of a `$`-brace placeholder. -/
def braceR : Char := Char.ofNat 125

/-- Scanner modes for the template substitutor: plain text, just after a
`$`, inside a braced placeholder, inside a bare identifier placeholder
(the accumulators hold the name read so far, reversed). -/
inductive SubstMode
  | normal
  | afterDollar
  | inBrace (acc : List Char)
  | inIdent (acc : List Char)

/-- Models Python `string.Template.substitute` as a character scanner:
`$$` escapes, `$name` and braced placeholders are replaced from the
mapping; a missing key raises `KeyError` and a stray or unterminated `$`
placeholder raises `ValueError`. -/
def substGo (mapping : List (String × String)) : SubstMode → List Char → Except String String
  | .normal, [] => .ok ""
  | .normal, c :: rest =>
    if c == '$' then substGo mapping .afterDollar rest
    else
      match substGo mapping .normal rest with
      | .error e => .error e
      | .ok t => .ok (String.mk [c] ++ t)
  | .afterDollar, [] => .error "ValueError: Invalid placeholder in string"
  | .afterDollar, c :: rest =>
    if c == '$' then
      match substGo mapping .normal rest with
      | .error e => .error e
      | .ok t => .ok ("$" ++ t)
    else if c == braceL then substGo mapping (.inBrace []) rest
    else if c.isAlpha || c == '_' then substGo mapping (.inIdent [c]) rest
    else .error "ValueError: Invalid placeholder in string"
  | .inBrace _, [] => .error "ValueError: Invalid placeholder in string"
  | .inBrace acc, c :: rest =>
    if c == braceR then
      match mapping.lookup (String.mk acc.reverse) with
      | none => .error ("KeyError: " ++ String.mk acc.reverse)
      | some v =>
        match substGo mapping .normal rest with
        | .error e => .error e
        | .ok t => .ok (v ++ t)
    else substGo mapping (.inBrace (c :: acc)) rest
  | .inIdent acc, [] =>
    (match mapping.lookup (String.mk acc.reverse) with
     | none => .error ("KeyError: " ++ String.mk acc.reverse)
     | some v => .ok v)
  | .inIdent acc, c :: rest =>
    if c.isAlphanum || c == '_' then substGo mapping (.inIdent (c :: acc)) rest
    else
      match mapping.lookup (String.mk acc.reverse) with
      | none => .error ("KeyError: " ++ String.mk acc.reverse)
      | some v =>
        if c == '$' then
          match substGo mapping .afterDollar rest with
          | .error e => .error e
          | .ok t => .ok (v ++ t)
        else
          match substGo mapping .normal rest with
          | .error e => .error e
          | .ok t => .ok (v ++ String.mk [c] ++ t)

/-- Models `string.Template(tmpl).substitute(mapping)`. -/
def templateSubstitute (tmpl : String) (mapping : List (String × String)) :
    Except String String :=
  substGo mapping .normal tmpl.data

/-- Scan captured stdout for the generator's version (pyxtal.py lines
438-442): the first line containing `---(version` is split on whitespace
and its second token taken — `line.split()[1]` raises `IndexError` when the
line has fewer than two tokens.  This loop is not wrapped in any
try/except. -/
def scrapeLines : List String → Except String (Option String)
  | [] => .ok none
  | l :: rest =>
    if strContains l "---(version" then
      match pySplitWs l with
      | _ :: v :: _ => .ok (some v)
      | _ => .error "IndexError: list index out of range"
    else scrapeLines rest

/-- The generator-version scrape over the whole captured stdout. -/
def scrapePyXtalVersion (stdoutText : String) : Except String (Option String) :=
  scrapeLines (pySplitLines stdoutText)

/-- The version-stamped generator citation (pyxtal.py lines 436-454):
scrape the version, then substitute it into the bibliography template.
None of this is guarded by a try/except, so a scrape `IndexError` or a
substitution failure propagates out of `run`. -/
def pyxtalCiteStep (stdoutText : String) (tmpl : String) :
    Except String (Option String) :=
  if stdoutText == "" then .ok none
  else
    match scrapePyXtalVersion stdoutText with
    | .error e => .error e
    | .ok none => .ok none
    | .ok (some v) =>
      match templateSubstitute tmpl [("version", v)] with
      | .error e => .error e
      | .ok c => .ok (some c)

/-- The process-wide Open Babel version cache value: `"unknown"` or the
parsed version/month/year fields. -/
inductive OBVersion
  | unknown
  | vers (version month year : String)
deriving DecidableEq

/-- Parse `obabel --version` output (pyxtal.py lines 481-491): only the
first line is ever examined, because the `break` sits at loop-body level;
it must strip-split into exactly nine tokens starting with `Open`, with the
version, month and year at indices 2, 4 and 6. -/
def parseOBVersionOut (out : String) : OBVersion :=
  match pySplitLines out with
  | [] => .unknown
  | line :: _ =>
    match pySplitWs (strTrim line) with
    | ["Open", _, v, _, mo, _, yr, _, _] => .vers v mo yr
    | _ => .unknown

/-- The Open Babel version-detection step (pyxtal.py lines 465-491).
`cache` is the module global `OpenBabel_version`, `whichPath` the result of
`shutil.which("obabel")`, and `runOutcome` the subprocess outcome (`none` =
it raised, caught by the bare `except`, which still sets the cache to
`unknown`).  Returns the new cache value and whether the subprocess was
spawned.  Total: every failure inside is caught. -/
def obDetect (cache : Option OBVersion) (whichPath : Option String)
    (runOutcome : Option String) : Option OBVersion × Bool :=
  match cache with
  | some v => (some v, false)
  | none =>
    match whichPath with
    | none => (none, false)
    | some _ =>
      match runOutcome with
      | none => (some .unknown, true)
      | some out => (some (parseOBVersionOut out), true)

/-- The version-stamped Open Babel citation (pyxtal.py lines 493-511): only
attempted when the cache holds a parsed version, and the whole
substitute-and-cite block is wrapped in `try: ... except Exception: pass`,
so it always returns normally (`.ok`); a failed substitution yields no
citation instead of an error. -/
def obCiteStep (cache : Option OBVersion) (tmpl : String) :
    Except String (Option String) :=
  match cache with
  | some (.vers v mo yr) =>
    match templateSubstitute tmpl [("month", mo), ("version", v), ("year", yr)] with
    | .ok c => .ok (some c)
    | .error _ => .ok none
  | _ => .ok none

/-! ## Concrete inputs used by the witnesses and counterexamples -/

/-- Resolved parameters with the source defaults: atoms build, 3-D crystal,
area 25 Å², thickness 5 Å, one attempt, default structure handling, no
naming policies. -/
def paramsAtoms : Params :=
  ⟨"atoms", "3-D crystal", "P-1", [("H", 2), ("O", 1)], 1, 1, ⟨2500000000⟩,
    ⟨500000000⟩, "Create a new system and configuration", "", ""⟩

/-- A two-atom current configuration used as concrete input. -/
def confWater : CurrentConfiguration :=
  ⟨2, ["H", "O"], [(⟨25000000⟩, ⟨-200000000⟩, ⟨0⟩), (⟨0⟩, ⟨0⟩, ⟨0⟩)], "initial"⟩

/-- The database as `get_system_configuration` leaves it: one system with
one (empty) configuration, the pre-obtained target. -/
def dbStart : SystemDB := ⟨[⟨"sys0", [⟨"conf0", .empty⟩]⟩]⟩

/-- The ingestion start state: current indices at the pre-obtained target,
no structures yet, the local `obMol` unassigned. -/
def stStart : IngestState := ⟨dbStart, 0, 0, 0, none⟩

/-- A returned CIF file. -/
def cifA : RetFile := ⟨"a.cif", some "CIF1", "", false, "", "", ""⟩

/-- A second returned CIF file. -/
def cifB : RetFile := ⟨"b.cif", some "CIF2", "", false, "", "", ""⟩

/-- Parameters for the sequential-naming scenario: 3-D run, subsequent
files as new configurations, configuration-name policy `"Sequential"`. -/
def paramsSeq : Params := { paramsAtoms with
  subsequentHandling := "Create a new configuration"
  configurationNamePolicy := "Sequential" }

/-- Parameters for the 0-D `from file` naming scenario. -/
def paramsFromFile0D : Params := { paramsAtoms with
  dimensionality := "0-D molecular"
  systemNamePolicy := "name from file"
  configurationNamePolicy := "name from file" }

/-! ## Helper lemmas and the claim theorems -/

/-- Claim C1: for dimensionality 0-D the builder requests `*.xyz` (and not
`*.cif`); for 3-D it requests `*.cif`; but for 1-D and 2-D the f-string
`f"{value:f.3}"` (pyxtal.py lines 256 and 262) uses an invalid format
specifier — `:.3f` was clearly intended — so the builder raises
`ValueError` instead of appending the converted area/thickness after `-t`
and requesting `*.cif`. -/
theorem c1_invalid_format_specifier :
    buildCommand "pyxtal_main.py" { paramsAtoms with dimensionality := "0-D molecular" }
        "sys" confWater =
      .ok ⟨["pyxtal_main.py", "-d", "0", "-s", "P-1", "-e", "H,O", "-n", "2,1",
        "-o", ".", "-a", "1"], [], ["*.xyz"]⟩ ∧
    buildCommand "pyxtal_main.py" paramsAtoms "sys" confWater =
      .ok ⟨["pyxtal_main.py", "-d", "3", "-s", "P-1", "-e", "H,O", "-n", "2,1",
        "-o", ".", "-a", "1"], [], ["*.cif"]⟩ ∧
    buildCommand "pyxtal_main.py" { paramsAtoms with dimensionality := "1-D rod" }
        "sys" confWater = .error "ValueError: Invalid format specifier f.3" ∧
    buildCommand "pyxtal_main.py" { paramsAtoms with dimensionality := "2-D layer" }
        "sys" confWater = .error "ValueError: Invalid format specifier f.3" :=
  ⟨rfl, rfl, rfl, rfl⟩

/-- Claim C2 counterexample: in a 0-D run a returned `.cif` file is accepted,
counted and loaded (the `elif filename.endswith(".cif")` at pyxtal.py line
380 is not gated on dimensionality), although the claimed acceptance rule
says a 0-D run accepts only `.xyz` files. -/
theorem c2_cif_accepted_in_0d :
    specAccepts "0-D molecular" "a.cif" = false ∧
    ingest { paramsAtoms with dimensionality := "0-D molecular" } stStart [cifA] =
      .ok ⟨⟨[⟨"sys0", [⟨"conf0", .fromCifText (some "CIF1")⟩]⟩]⟩, 0, 0, 1, none⟩ :=
  ⟨by decide, rfl⟩

/-- Claim C6: a null process-runner result makes `run` log one error-level entry
and return no successor node, with no structures created and no output
files written (pyxtal.py lines 329-331). -/
theorem c6_null_result_aborts (P : Params) (st : IngestState) :
    processResult P st none =
      .ok ⟨none, ["There was an error running PyXtal"], [], 0⟩ :=
  rfl

/-- Claim C7 counterexample: a failure in the generator branch of citation
registration is not swallowed — on a stdout whose marker line
`---(version` has no second whitespace token, `line.split()[1]`
(pyxtal.py line 441) raises an `IndexError` that propagates out of `run`. -/
theorem c7_generator_version_raises :
    pyxtalCiteStep "PyXtal\n---(version\ndone" "cite $version" =
      .error "IndexError: list index out of range" :=
  rfl

/-- Claim C7 amended: the Open Babel citation branch is wrapped in
`try/except: pass` and never raises, whatever the cache and template
(pyxtal.py lines 493-511); the generator branch is unguarded — its version
scrape raises `IndexError` on a marker line with fewer than two tokens, and
a failing template substitution there propagates as well
(pyxtal.py lines 436-454). -/
theorem c7_citation_error_containment :
    (∀ (cache : Option OBVersion) (tmpl : String), ∃ r, obCiteStep cache tmpl = .ok r) ∧
    pyxtalCiteStep "---(version" "$version" = .error "IndexError: list index out of range" ∧
    pyxtalCiteStep "---(version 9.9" "cite $bad" = .error "KeyError: bad" := by
  refine ⟨?_, rfl, rfl⟩
  intro cache tmpl
  match cache with
  | none => exact ⟨none, rfl⟩
  | some .unknown => exact ⟨none, rfl⟩
  | some (.vers v mo yr) =>
    cases hsub : templateSubstitute tmpl [("month", mo), ("version", v), ("year", yr)] with
    | error e => exact ⟨none, by simp [obCiteStep, hsub]⟩
    | ok c => exact ⟨some c, by simp [obCiteStep, hsub]⟩

/-- Claim C9 counterexample: the Open Babel version cache is written even when
detection fails — if the subprocess raises, the bare `except` still sets
the module global to `"unknown"` (pyxtal.py lines 477-478), so the cache is
populated before any successful detection. -/
theorem c9_cache_written_on_failure :
    obDetect none (some "/usr/bin/obabel") none = (some OBVersion.unknown, true) :=
  rfl

/-- Claim C9 amended: the cache is initialized lazily and never invalidated —
once non-empty no later run spawns the detection subprocess, and when the
executable is absent the cache stays empty (a later run retries); but it is
written after the first attempt in which `obabel` is found on PATH, whether
or not detection succeeds (`unknown` on failure or unparsable output). -/
theorem c9_cache_lifecycle :
    (∀ (v : OBVersion) (p : Option String) (r : Option String),
      obDetect (some v) p r = (some v, false)) ∧
    (∀ r : Option String, obDetect none none r = (none, false)) ∧
    (∀ p : String, obDetect none (some p) none = (some .unknown, true)) ∧
    (∀ (p out : String),
      obDetect none (some p) (some out) = (some (parseOBVersionOut out), true)) :=
  ⟨fun _ _ _ => rfl, fun _ => rfl, fun _ => rfl, fun _ _ => rfl⟩
/-- Helper: when the system-name policy does not ask for the file title,
the system-name dispatch always returns normally. -/
theorem applySystemName_ok (policy : String) (ob : Option String) (cs sm : String)
    (h : strContains (strToLower policy) "from file" = false) :
    ∃ r, applySystemName policy ob cs sm = .ok r := by
  by_cases h1 : (policy == "") = true <;>
    simp only [applySystemName, h1, h, if_true, if_false, Bool.false_eq_true,
      reduceIte] <;>
    first
      | (split_ifs <;> exact ⟨_, rfl⟩)
      | exact ⟨_, rfl⟩

/-- Helper: when the configuration-name policy does not ask for the file
title, the configuration-name dispatch always returns normally. -/
theorem applyConfigurationName_ok (policy : String) (n : Nat) (ob : Option String)
    (cs sm : String)
    (h : strContains (strToLower policy) "from file" = false) :
    ∃ r, applyConfigurationName policy n ob cs sm = .ok r := by
  by_cases h1 : (policy == "") = true <;>
    simp only [applyConfigurationName, h1, h, if_true, if_false, Bool.false_eq_true,
      reduceIte] <;>
    first
      | (split_ifs <;> exact ⟨_, rfl⟩)
      | exact ⟨_, rfl⟩

/-- Helper: once the local `obMol` is assigned, the system-name dispatch
always returns normally, whatever the policy. -/
theorem applySystemName_assigned_ok (policy : String) (t : String) (cs sm : String) :
    ∃ r, applySystemName policy (some t) cs sm = .ok r := by
  by_cases h1 : (policy == "") = true <;>
    simp only [applySystemName, h1, if_true, if_false, Bool.false_eq_true, reduceIte] <;>
    first
      | (split_ifs <;> exact ⟨_, rfl⟩)
      | exact ⟨_, rfl⟩

/-- Helper: once the local `obMol` is assigned, the configuration-name
dispatch always returns normally, whatever the policy. -/
theorem applyConfigurationName_assigned_ok (policy : String) (n : Nat) (t : String)
    (cs sm : String) :
    ∃ r, applyConfigurationName policy n (some t) cs sm = .ok r := by
  by_cases h1 : (policy == "") = true <;>
    simp only [applyConfigurationName, h1, if_true, if_false, Bool.false_eq_true,
      reduceIte] <;>
    first
      | (split_ifs <;> exact ⟨_, rfl⟩)
      | exact ⟨_, rfl⟩
/-- Helper: one loop iteration returns normally and counts the file exactly
when the implemented acceptance condition holds, provided accepted 0-D
`.xyz` files are readable and neither naming policy asks for the file
title. -/
theorem ingestFile_count (P : Params) (st : IngestState) (f : RetFile)
    (hread : (strContains P.dimensionality "0-D" && strEndsWith f.name ".xyz") = true →
      f.xyzReadOk = true)
    (hsys : strContains (strToLower P.systemNamePolicy) "from file" = false)
    (hconf : strContains (strToLower P.configurationNamePolicy) "from file" = false) :
    ∃ st2, ingestFile P st f = .ok st2 ∧
      st2.nStructures = st.nStructures +
        (if codeAccepts P.dimensionality f.name then 1 else 0) := by
  cases ha : (strContains P.dimensionality "0-D" && strEndsWith f.name ".xyz") with
  | true =>
    have hro := hread ha
    obtain ⟨r1, h1⟩ := applySystemName_ok P.systemNamePolicy (some f.obTitle)
      f.canonicalSmiles f.smiles hsys
    obtain ⟨r2, h2⟩ := applyConfigurationName_ok P.configurationNamePolicy
      (st.nStructures + 1) (some f.obTitle) f.canonicalSmiles f.smiles hconf
    cases hres : ingestFile P st f with
    | error e =>
      revert hres
      simp [ingestFile, ha, hro, h1, h2]
    | ok st2 =>
      refine ⟨st2, rfl, ?_⟩
      revert hres
      simp only [ingestFile, ha, hro, Bool.not_true, Bool.and_false, Bool.not_false,
        Bool.true_and, Bool.false_eq_true, reduceIte, h1, h2, if_true]
      intro hres
      injection hres with hres
      subst hres
      rw [Bool.and_eq_true] at ha
      simp [codeAccepts, ha.1, ha.2]
  | false =>
    cases hc : strEndsWith f.name ".cif" with
    | false =>
      refine ⟨st, ?_, ?_⟩
      · simp [ingestFile, ha, hc]
      · simp [codeAccepts, ha, hc]
    | true =>
      obtain ⟨r1, h1⟩ := applySystemName_ok P.systemNamePolicy st.obMol
        f.canonicalSmiles f.smiles hsys
      obtain ⟨r2, h2⟩ := applyConfigurationName_ok P.configurationNamePolicy
        (st.nStructures + 1) st.obMol f.canonicalSmiles f.smiles hconf
      cases hres : ingestFile P st f with
      | error e =>
        revert hres
        simp [ingestFile, ha, hc, h1, h2]
      | ok st2 =>
        refine ⟨st2, rfl, ?_⟩
        revert hres
        simp only [ingestFile, ha, hc, Bool.not_true, Bool.and_false, Bool.not_false,
          Bool.true_and, Bool.false_and, Bool.and_self, Bool.false_eq_true, reduceIte,
          h1, h2, if_true, if_false]
        intro hres
        injection hres with hres
        subst hres
        simp [codeAccepts, ha, hc]
/-- Claim C2 amended: files are processed in the order received; one iteration is
performed per file and a file is counted (and loaded) iff it satisfies the
implemented acceptance condition `codeAccepts` — a 0-D `.xyz` file, or a
`.cif` file regardless of dimensionality; every other file is skipped
without error.  Hypotheses: accepted 0-D `.xyz` files are readable
(otherwise the read raises, pyxtal.py line 379) and neither naming policy
is a `from file` policy (those can raise, see C10). -/
theorem c2_acceptance_count (P : Params) (st : IngestState) (files : List RetFile)
    (hread : ∀ f ∈ files,
      (strContains P.dimensionality "0-D" && strEndsWith f.name ".xyz") = true →
        f.xyzReadOk = true)
    (hsys : strContains (strToLower P.systemNamePolicy) "from file" = false)
    (hconf : strContains (strToLower P.configurationNamePolicy) "from file" = false) :
    ∃ st2, ingest P st files = .ok st2 ∧
      st2.nStructures = st.nStructures +
        files.countP (fun f => codeAccepts P.dimensionality f.name) := by
  induction files generalizing st with
  | nil => exact ⟨st, rfl, by simp⟩
  | cons f rest ih =>
    obtain ⟨st1, h1, hn1⟩ := ingestFile_count P st f
      (hread f (List.mem_cons_self f rest)) hsys hconf
    obtain ⟨st2, h2, hn2⟩ := ih st1 (fun g hg => hread g (List.mem_cons_of_mem f hg))
    refine ⟨st2, ?_, ?_⟩
    · simp only [ingest, h1, h2]
    · rw [hn2, hn1, List.countP_cons]
      by_cases hacc : codeAccepts P.dimensionality f.name = true <;> simp [hacc] <;> omega

/-- Witness for C2's amended theorem: a concrete 3-D run over a `.cif`
file, a stray `.xyz` file and a `.txt` file counts exactly one structure. -/
theorem c2_acceptance_count_witness :
    ∃ st2, ingest paramsAtoms stStart
        [cifA, ⟨"b.xyz", some "X", "", true, "t", "", ""⟩,
          ⟨"log.txt", some "L", "", true, "", "", ""⟩] = .ok st2 ∧
      st2.nStructures = 0 +
        List.countP (fun f => codeAccepts paramsAtoms.dimensionality f.name)
          [cifA, ⟨"b.xyz", some "X", "", true, "t", "", ""⟩,
            ⟨"log.txt", some "L", "", true, "", "", ""⟩] := by
  have h := c2_acceptance_count paramsAtoms stStart
    [cifA, ⟨"b.xyz", some "X", "", true, "t", "", ""⟩,
      ⟨"log.txt", some "L", "", true, "", "", ""⟩]
    (by decide) (by decide) (by decide)
  exact h
/-- Helper: the f-string coordinate line never raises — the spec `"15.8f"`
is valid — and produces exactly the plain rendering. -/
theorem coordLine_eq (s : String) (xyz : Fixed8 × Fixed8 × Fixed8) :
    coordLine s xyz = .ok (coordLineStr s xyz) :=
  rfl

/-- Helper: serializing the zipped atom list never raises and is the
ordinary map of the plain per-line rendering. -/
theorem exceptMap_coordLine_ok :
    ∀ l : List (String × (Fixed8 × Fixed8 × Fixed8)),
      exceptMap (fun p => coordLine p.1 p.2) l =
        .ok (l.map (fun p => coordLineStr p.1 p.2))
  | [] => rfl
  | a :: l => by
    have ih := exceptMap_coordLine_ok l
    simp only [exceptMap]
    rw [coordLine_eq, ih]
    rfl

/-- Helper: a formatted coordinate is at least 15 characters wide. -/
theorem fmt158_width (x : Fixed8) : 15 ≤ (fmt158 x).length := by
  have h : (fmt158 x).length =
      (15 - (renderFixed x 8).length) + (renderFixed x 8).length := by
    simp [fmt158, leftPadWith, String.length_append]
  omega

/-- Claim C3: in molecule mode the generated coordinate-file text is the
newline-join of: a first line equal to the current configuration's atom
count, one title line, and exactly atom-count further lines, each an
element symbol padded to width 2 followed by three `15.8f` coordinates of
width at least 15 (pyxtal.py lines 284-293). -/
theorem c3_xyz_file_shape (curName : String) (conf : CurrentConfiguration)
    (hs : conf.symbols.length = conf.n_atoms)
    (hc : conf.coordinates.length = conf.n_atoms) :
    ∃ L, xyzLines curName conf = .ok L ∧
      xyzFileText curName conf = .ok (String.intercalate "\n" L) ∧
      L = toString conf.n_atoms :: (curName ++ "/" ++ conf.name) ::
        (conf.symbols.zip conf.coordinates).map (fun p => coordLineStr p.1 p.2) ∧
      L.length = conf.n_atoms + 2 ∧
      (∀ x : Fixed8, 15 ≤ (fmt158 x).length) := by
  have hmap := exceptMap_coordLine_ok (conf.symbols.zip conf.coordinates)
  refine ⟨_, ?_, ?_, rfl, ?_, fun x => fmt158_width x⟩
  · simp only [xyzLines, hmap]
  · simp only [xyzFileText, xyzLines, hmap]
  · simp [List.length_zip, hs, hc]

/-- Witness for C3 at the concrete two-atom configuration. -/
theorem c3_xyz_file_shape_witness :
    ∃ L, xyzLines "sys" confWater = .ok L ∧
      xyzFileText "sys" confWater = .ok (String.intercalate "\n" L) ∧
      L = toString confWater.n_atoms :: ("sys" ++ "/" ++ confWater.name) ::
        (confWater.symbols.zip confWater.coordinates).map
          (fun p => coordLineStr p.1 p.2) ∧
      L.length = confWater.n_atoms + 2 ∧
      (∀ x : Fixed8, 15 ≤ (fmt158 x).length) :=
  c3_xyz_file_shape "sys" confWater (by decide) (by decide)
/-- Claim C4: on an invocation result with exactly two accepted CIF files, the
first goes into the pre-obtained system/configuration; under
`subsequent structure handling = "Create a new configuration"` the second
becomes a second configuration of the same system (one system, two
configurations), and under any other value a new system with one
configuration is created for it (two systems, one configuration each)
(pyxtal.py lines 364-391).  Stated for a 3-D run with empty naming
policies; the file names and contents are arbitrary. -/
theorem c4_subsequent_structure_handling (f1 f2 : RetFile) (policy : String)
    (hc1 : strEndsWith f1.name ".cif" = true) (hx1 : strEndsWith f1.name ".xyz" = false)
    (hc2 : strEndsWith f2.name ".cif" = true) (hx2 : strEndsWith f2.name ".xyz" = false)
    (hp : policy ≠ "Create a new configuration") :
    (∃ stA, ingest { paramsAtoms with subsequentHandling := "Create a new configuration" }
        stStart [f1, f2] = .ok stA ∧
      configCounts stA.db = [2] ∧ stA.nStructures = 2) ∧
    (∃ stB, ingest { paramsAtoms with subsequentHandling := policy }
        stStart [f1, f2] = .ok stB ∧
      configCounts stB.db = [1, 1] ∧ stB.nStructures = 2) := by
  have hd : strContains "3-D crystal" "0-D" = false := by decide
  have hpol : (policy == "Create a new configuration") = false :=
    beq_eq_false_iff_ne.mpr hp
  constructor
  · have e1 : ingestFile
        { paramsAtoms with subsequentHandling := "Create a new configuration" }
        stStart f1 =
        .ok ⟨⟨[⟨"sys0", [⟨"conf0", .fromCifText f1.data⟩]⟩]⟩, 0, 0, 1, none⟩ := by
      simp [ingestFile, applySystemName, applyConfigurationName,
        SystemDB.setConfigGeom, modifyAt, stStart, dbStart, paramsAtoms, hd, hx1, hc1]
    have e2 : ingestFile
        { paramsAtoms with subsequentHandling := "Create a new configuration" }
        ⟨⟨[⟨"sys0", [⟨"conf0", .fromCifText f1.data⟩]⟩]⟩, 0, 0, 1, none⟩ f2 =
        .ok ⟨⟨[⟨"sys0", [⟨"conf0", .fromCifText f1.data⟩,
          ⟨"", .fromCifText f2.data⟩]⟩]⟩, 0, 1, 2, none⟩ := by
      simp [ingestFile, applySystemName, applyConfigurationName,
        SystemDB.setConfigGeom, SystemDB.createConfiguration, modifyAt,
        paramsAtoms, hd, hx2, hc2]
    refine ⟨⟨⟨[⟨"sys0", [⟨"conf0", .fromCifText f1.data⟩,
      ⟨"", .fromCifText f2.data⟩]⟩]⟩, 0, 1, 2, none⟩, ?_, rfl, rfl⟩
    simp only [ingest, e1, e2]
  · have e1 : ingestFile { paramsAtoms with subsequentHandling := policy }
        stStart f1 =
        .ok ⟨⟨[⟨"sys0", [⟨"conf0", .fromCifText f1.data⟩]⟩]⟩, 0, 0, 1, none⟩ := by
      simp [ingestFile, applySystemName, applyConfigurationName,
        SystemDB.setConfigGeom, modifyAt, stStart, dbStart, paramsAtoms, hd, hx1, hc1]
    have e2 : ingestFile { paramsAtoms with subsequentHandling := policy }
        ⟨⟨[⟨"sys0", [⟨"conf0", .fromCifText f1.data⟩]⟩]⟩, 0, 0, 1, none⟩ f2 =
        .ok ⟨⟨[⟨"sys0", [⟨"conf0", .fromCifText f1.data⟩]⟩,
          ⟨"", [⟨"", .fromCifText f2.data⟩]⟩]⟩, 1, 0, 2, none⟩ := by
      simp [ingestFile, applySystemName, applyConfigurationName,
        SystemDB.setConfigGeom, SystemDB.createConfiguration, SystemDB.createSystem,
        modifyAt, paramsAtoms, hd, hx2, hc2, hpol]
    refine ⟨⟨⟨[⟨"sys0", [⟨"conf0", .fromCifText f1.data⟩]⟩,
      ⟨"", [⟨"", .fromCifText f2.data⟩]⟩]⟩, 1, 0, 2, none⟩, ?_, rfl, rfl⟩
    simp only [ingest, e1, e2]

/-- Witness for C4 at two concrete CIF files and the policy
`"Create a new system"`. -/
theorem c4_subsequent_structure_handling_witness :
    (∃ stA, ingest { paramsAtoms with subsequentHandling := "Create a new configuration" }
        stStart [cifA, cifB] = .ok stA ∧
      configCounts stA.db = [2] ∧ stA.nStructures = 2) ∧
    (∃ stB, ingest { paramsAtoms with subsequentHandling := "Create a new system" }
        stStart [cifA, cifB] = .ok stB ∧
      configCounts stB.db = [1, 1] ∧ stB.nStructures = 2) :=
  c4_subsequent_structure_handling cifA cifB "Create a new system"
    (by decide) (by decide) (by decide) (by decide) (by decide)
/-- Helper: molecule-mode serialization never raises. -/
theorem xyzFileText_ok (curName : String) (conf : CurrentConfiguration) :
    xyzFileText curName conf =
      .ok (String.intercalate "\n" (toString conf.n_atoms ::
        (curName ++ "/" ++ conf.name) ::
        (conf.symbols.zip conf.coordinates).map (fun p => coordLineStr p.1 p.2))) := by
  simp only [xyzFileText, xyzLines, exceptMap_coordLine_ok]

/-- Claim C5 counterexample: the command-building dispatch itself does not raise
on an unrecognized dimensionality — the chain at pyxtal.py lines 249-266
has no `else` branch, so the builder returns normally, emitting `-d` with
no numeric code and requesting no return files. -/
theorem c5_builder_does_not_raise :
    buildCommand "pyxtal_main.py" { paramsAtoms with dimensionality := "4-D weird" }
        "sys" confWater =
      .ok ⟨["pyxtal_main.py", "-d", "-s", "P-1", "-e", "H,O", "-n", "2,1",
        "-o", ".", "-a", "1"], [], []⟩ :=
  rfl

/-- Claim C5 amended: an unrecognized, non-expression dimensionality raises
`ValueError` in `description_text` (pyxtal.py line 167), and `run` raises
the same error synchronously because it prints the description (line 216)
before building the command; the command-building dispatch itself, however,
has no `else` branch and returns normally with no dimensionality code and
no requested return files. -/
theorem c5_unrecognized_dimensionality (dim : String)
    (h0 : strContains dim "0-D" = false) (h1 : strContains dim "1-D" = false)
    (h2 : strContains dim "2-D" = false) (h3 : strContains dim "3-D" = false)
    (hx : is_expr dim = false) :
    descriptionDimPhrase dim =
      .error ("ValueError: Cant handle dimensionality: " ++ dim) ∧
    (∀ (exe curName : String) (P : Params) (conf : CurrentConfiguration),
      P.dimensionality = dim →
      runCommandPhase exe P curName conf =
        .error ("ValueError: Cant handle dimensionality: " ++ dim)) ∧
    (∀ (exe curName : String) (P : Params) (conf : CurrentConfiguration),
      P.dimensionality = dim →
      ∃ out, buildCommand exe P curName conf = .ok out ∧ out.returnFiles = []) := by
  have hdesc : descriptionDimPhrase dim =
      .error ("ValueError: Cant handle dimensionality: " ++ dim) := by
    simp [descriptionDimPhrase, h0, h1, h2, h3, hx]
  refine ⟨hdesc, ?_, ?_⟩
  · intro exe curName P conf hdim
    subst hdim
    simp only [runCommandPhase, hdesc]
  · intro exe curName P conf hdim
    subst hdim
    rcases hres : buildCommand exe P curName conf with e | out
    · exfalso
      revert hres
      simp only [buildCommand, h0, h1, h2, h3, Bool.false_eq_true, reduceIte,
        xyzFileText_ok]
      split_ifs <;> simp
    · refine ⟨out, rfl, ?_⟩
      revert hres
      simp only [buildCommand, h0, h1, h2, h3, Bool.false_eq_true, reduceIte,
        xyzFileText_ok]
      split_ifs <;> (intro hres; injection hres with h; subst h; rfl)

/-- Witness for C5's amended theorem at the dimensionality `"4-D weird"`. -/
theorem c5_unrecognized_dimensionality_witness :
    descriptionDimPhrase "4-D weird" =
      .error ("ValueError: Cant handle dimensionality: " ++ "4-D weird") ∧
    runCommandPhase "exe" { paramsAtoms with dimensionality := "4-D weird" }
        "sys" confWater =
      .error ("ValueError: Cant handle dimensionality: " ++ "4-D weird") ∧
    ∃ out, buildCommand "exe" { paramsAtoms with dimensionality := "4-D weird" }
        "sys" confWater = .ok out ∧ out.returnFiles = [] := by
  have h := c5_unrecognized_dimensionality "4-D weird"
    (by decide) (by decide) (by decide) (by decide) (by decide)
  exact ⟨h.1, h.2.1 "exe" "sys" _ confWater rfl, h.2.2 "exe" "sys" _ confWater rfl⟩
/-- Claim C8: a configuration-name policy that is case-insensitively
`"sequential"` names the n-th accepted structure with the decimal string of
n (pyxtal.py lines 419-420) — concretely, two accepted CIF files under
`Create a new configuration` yield configurations named `"1"` and `"2"` —
while the system-name dispatch (lines 399-408) has no `sequential` branch,
so the same policy string is assigned literally as the system name. -/
theorem c8_sequential_naming :
    (∀ (policy : String) (n : Nat) (ob : Option String) (cs sm : String),
      strToLower policy = "sequential" →
      applyConfigurationName policy n ob cs sm = .ok (some (toString n))) ∧
    (∀ (policy : String) (ob : Option String) (cs sm : String),
      strToLower policy = "sequential" →
      applySystemName policy ob cs sm = .ok (some policy)) ∧
    (∃ st2, ingest paramsSeq stStart [cifA, cifB] = .ok st2 ∧
      st2.db.systems.map (fun s => s.configs.map (fun c => c.name)) = [["1", "2"]]) := by
  have hf : strContains "sequential" "from file" = false := by decide
  have hcs : strContains "sequential" "canonical smiles" = false := by decide
  have hsm : strContains "sequential" "smiles" = false := by decide
  refine ⟨?_, ?_, ?_⟩
  · intro policy n ob cs sm h
    have hpol : policy ≠ "" := by
      intro he; rw [he] at h; exact absurd h (by decide)
    have hne := beq_eq_false_iff_ne.mpr hpol
    simp [applyConfigurationName, hne, h, hf, hcs, hsm]
  · intro policy ob cs sm h
    have hpol : policy ≠ "" := by
      intro he; rw [he] at h; exact absurd h (by decide)
    have hne := beq_eq_false_iff_ne.mpr hpol
    simp [applySystemName, hne, h, hf, hcs, hsm]
  · exact ⟨⟨⟨[⟨"sys0", [⟨"1", .fromCifText (some "CIF1")⟩,
      ⟨"2", .fromCifText (some "CIF2")⟩]⟩]⟩, 0, 1, 2, none⟩, rfl, rfl⟩

/-- Witness for C8 at the policy string `"Sequential"` and n = 2. -/
theorem c8_sequential_naming_witness :
    applyConfigurationName "Sequential" 2 none "" "" = .ok (some "2") ∧
    applySystemName "Sequential" none "" "" = .ok (some "Sequential") :=
  ⟨c8_sequential_naming.1 "Sequential" 2 none "" "" (by decide),
    c8_sequential_naming.2.1 "Sequential" none "" "" (by decide)⟩

/-- Claim C10: in a run whose dimensionality is not 0-D no `.xyz` file is ever
read, so the Python local `obMol` is never assigned; if the system-name or
configuration-name policy contains `from file`, the naming step evaluates
`obMol.GetTitle()` (pyxtal.py lines 402 and 414) and the run aborts with an
unhandled name-resolution error on the first accepted `.cif` file.  In a
0-D run whose accepted file is a readable `.xyz`, `obMol` is assigned and
the same policies complete normally. -/
theorem c10_from_file_policy_unbound :
    (∀ (P : Params) (st : IngestState) (f : RetFile),
      strContains P.dimensionality "0-D" = false →
      strEndsWith f.name ".cif" = true → strEndsWith f.name ".xyz" = false →
      strContains (strToLower P.systemNamePolicy) "from file" = true →
      st.obMol = none →
      ingest P st [f] =
        .error "UnboundLocalError: local variable obMol referenced before assignment") ∧
    (∀ (P : Params) (st : IngestState) (f : RetFile),
      strContains P.dimensionality "0-D" = false →
      strEndsWith f.name ".cif" = true → strEndsWith f.name ".xyz" = false →
      strContains (strToLower P.systemNamePolicy) "from file" = false →
      strContains (strToLower P.configurationNamePolicy) "from file" = true →
      st.obMol = none →
      ingest P st [f] =
        .error "UnboundLocalError: local variable obMol referenced before assignment") ∧
    (∀ (P : Params) (st : IngestState) (f : RetFile),
      strContains P.dimensionality "0-D" = true →
      strEndsWith f.name ".xyz" = true → f.xyzReadOk = true →
      ∃ st2, ingest P st [f] = .ok st2) := by
  refine ⟨?_, ?_, ?_⟩
  · intro P st f hd hc hx hff hob
    have hpol : P.systemNamePolicy ≠ "" := by
      intro he; rw [he] at hff; exact absurd hff (by decide)
    have hne := beq_eq_false_iff_ne.mpr hpol
    have herr : applySystemName P.systemNamePolicy none f.canonicalSmiles f.smiles =
        .error "UnboundLocalError: local variable obMol referenced before assignment" := by
      simp [applySystemName, hne, hff]
    simp [ingest, ingestFile, hd, hc, hx, hob, herr]
  · intro P st f hd hc hx hsys hff hob
    obtain ⟨r1, h1⟩ := applySystemName_ok P.systemNamePolicy none
      f.canonicalSmiles f.smiles hsys
    have hpol : P.configurationNamePolicy ≠ "" := by
      intro he; rw [he] at hff; exact absurd hff (by decide)
    have hne := beq_eq_false_iff_ne.mpr hpol
    have herr : applyConfigurationName P.configurationNamePolicy (st.nStructures + 1)
        none f.canonicalSmiles f.smiles =
        .error "UnboundLocalError: local variable obMol referenced before assignment" := by
      simp [applyConfigurationName, hne, hff]
    simp [ingest, ingestFile, hd, hc, hx, hob, h1, herr]
  · intro P st f hd0 hxy hro
    obtain ⟨r1, h1⟩ := applySystemName_assigned_ok P.systemNamePolicy f.obTitle
      f.canonicalSmiles f.smiles
    obtain ⟨r2, h2⟩ := applyConfigurationName_assigned_ok P.configurationNamePolicy
      (st.nStructures + 1) f.obTitle f.canonicalSmiles f.smiles
    rcases hres : ingestFile P st f with e | st1
    · exfalso
      revert hres
      simp [ingestFile, hd0, hxy, hro, h1, h2]
    · exact ⟨st1, by simp [ingest, hres]⟩

/-- Witness for C10: a 3-D run with a `from file` system-name policy (and
then configuration-name policy) aborts on a returned CIF file, while a 0-D
run reading an `.xyz` file with both policies set to `from file` succeeds. -/
theorem c10_from_file_policy_unbound_witness :
    ingest { paramsAtoms with systemNamePolicy := "name from file" } stStart [cifA] =
      .error "UnboundLocalError: local variable obMol referenced before assignment" ∧
    ingest { paramsAtoms with configurationNamePolicy := "name from file" } stStart
        [cifA] =
      .error "UnboundLocalError: local variable obMol referenced before assignment" ∧
    ∃ st2, ingest paramsFromFile0D stStart
        [⟨"m.xyz", some "X", "", true, "title", "c", "s"⟩] = .ok st2 :=
  ⟨c10_from_file_policy_unbound.1 _ stStart cifA (by decide) (by decide) (by decide)
      (by decide) rfl,
    c10_from_file_policy_unbound.2.1 _ stStart cifA (by decide) (by decide) (by decide)
      (by decide) (by decide) rfl,
    c10_from_file_policy_unbound.2.2 _ stStart
      ⟨"m.xyz", some "X", "", true, "title", "c", "s"⟩ (by decide) (by decide) rfl⟩

end PyXtalStep
